import Mathlib

/-!
Verification of the Streamline hook-dispatch and frame-indexed camera-data
subsystems, shallowly embedded from
`source/plugins/sl.reflex/reflexEntry.cpp` and
`source/core/sl.interposer/vulkan/wrapper.cpp`.

The embedding is sequential: condition-variable waits are modelled by their
behaviour when no concurrent producer runs during the wait (the wait predicate
re-evaluates the same state, so `wait_for` times out).  Logging calls
(`SL_LOG_WARN`) are modelled as an explicit list of emitted warnings.
-/

namespace Streamline

/-! ## Camera-data channel: `ReflexCameraDataManager<T>` (reflexEntry.cpp:66-136)

The C++ class holds `std::vector<std::pair<uint32_t, T>> cameraData` resized
to `MAX_FRAMES_IN_FLIGHT` (a constant from `reflex_shared.h`, not part of the
sources here; the spec calls it the capacity `N`, "a small constant such as
4-8").  We therefore keep the capacity `N` as an explicit parameter of every
operation.  Physical slots are modelled as a total function from slot index to
`(storedFrameIndex, value)`; `vector::resize` default-constructs every slot to
`(0, T{})`. -/

/-- One warning emitted via `SL_LOG_WARN` in the camera-data manager. -/
inductive CameraWarning
  /-- "Camera data for frame %d already set!" (reflexEntry.cpp:90) -/
  | duplicate
  /-- "Out of order camera data detected!" (reflexEntry.cpp:95) -/
  | outOfOrder
  /-- "Camera data for frame %d was not readily available" (reflexEntry.cpp:118) -/
  | notAvailable
  /-- "Time out trying to get data for frame %d" (reflexEntry.cpp:129) -/
  | timeout
  deriving DecidableEq, Repr

/-- State of `ReflexCameraDataManager<T>`: the slot array `cameraData`
(modelled as a total function; only indices `< N` are ever addressed, since
every access is at `frameID % MAX_FRAMES_IN_FLIGHT`) and `lastFrame`. -/
structure CameraState (T : Type) where
  slots : Nat → Nat × T
  lastFrame : Nat

/-- The constructor (reflexEntry.cpp:75-78): `cameraData.resize(N)`
default-constructs every slot to `(0, T{})`; `lastFrame = 0`. -/
def initCameraState {T : Type} (dflt : T) : CameraState T :=
  { slots := fun _ => (0, dflt), lastFrame := 0 }

/-- `insertCameraData` (reflexEntry.cpp:80-100).  `frameID <= 0` (i.e. `= 0`
for a `uint32_t`) returns without storing; a `frameID` equal to the slot's
stored index warns and returns; a non-consecutive `frameID` warns but
proceeds; otherwise the slot is overwritten and `lastFrame` updated.
Returns the new state and the warnings logged. -/
def insertCameraData {T : Type} (N : Nat) (s : CameraState T) (frameID : Nat)
    (inCameraData : T) : CameraState T × List CameraWarning :=
  if frameID = 0 then
    (s, [])
  else
    let availableCameraData := s.slots (frameID % N)
    if frameID = availableCameraData.1 then
      (s, [CameraWarning.duplicate])
    else
      let warns : List CameraWarning :=
        if s.lastFrame + 1 ≠ frameID then [CameraWarning.outOfOrder] else []
      ({ slots := fun i =>
           if i = frameID % N then (frameID, inCameraData) else s.slots i,
         lastFrame := frameID }, warns)

/-- The wait timeout (milliseconds) chosen at reflexEntry.cpp:124:
`frameID < 5 ? 0ms : 100ms`. -/
def waitTimeoutMs (frameID : Nat) : Nat :=
  if frameID < 5 then 0 else 100

/-- `getCameraData` (reflexEntry.cpp:102-135), sequential semantics.  If the
slot `frameID % N` stores exactly `frameID`, the value is returned at once
with no warning.  Otherwise the "not readily available" warning is logged and
the condition-variable wait runs with timeout `waitTimeoutMs frameID`; with no
concurrent producer the predicate stays false, `wait_for` times out, the
timeout warning is logged when the timeout was positive, and `nullopt` is
returned.  Returns the optional value and the warnings logged. -/
def getCameraData {T : Type} (N : Nat) (s : CameraState T) (frameID : Nat) :
    Option T × List CameraWarning :=
  let availableCameraData := s.slots (frameID % N)
  if frameID = availableCameraData.1 then
    (some availableCameraData.2, [])
  else
    (none,
      CameraWarning.notAvailable ::
        (if 0 < waitTimeoutMs frameID then [CameraWarning.timeout] else []))

/-- `sl::Result` values used by the reflex entry points. -/
inductive SlResult
  | eOk
  | eErrorInvalidState
  deriving DecidableEq, Repr

/-- `slReflexGetCameraDataInternal` (reflexEntry.cpp:557-570): query the
camera-data channel; on a miss, warn and return `eErrorInvalidState` leaving
`outCameraData` untouched; on a hit, write the value into `outCameraData` and
return `eOk`.  Result is `(returned Result, outCameraData after the call)`. -/
def slReflexGetCameraDataInternal {T : Type} (N : Nat) (s : CameraState T)
    (frame : Nat) (outCameraData : T) : SlResult × T :=
  match (getCameraData N s frame).1 with
  | none => (SlResult.eErrorInvalidState, outCameraData)
  | some cameraData => (SlResult.eOk, cameraData)

/-! ## Hook dispatch (wrapper.cpp)

The intercepted Vulkan entry points (e.g. `vkCreateSwapchainKHR`
wrapper.cpp:2083-2116, `vkQueuePresentKHR` wrapper.cpp:2182-2219,
`vkDeviceWaitIdle` wrapper.cpp:1051-1071) share one call-site pattern:

    bool skip = false; VkResult result = VK_SUCCESS;
    for each before-hook: result = hook(args..., skip);
                          if (result != VK_SUCCESS) return result;
    if (!skip) result = realCall(args...);
    for each after-hook:  result = hook(args...);
                          if (result != VK_SUCCESS) return result;
    return result;

Hooks act on the native arguments and on ambient state by reference; we model
that world as an abstract state type `σ` which every hook and the real call
transform.  `VkResult` is the Vulkan result enum, an integer with
`VK_SUCCESS = 0`. -/

def VK_SUCCESS : Int := 0

/-- A before-hook: receives the state and the current `skip` flag (passed by
reference in C++), returns the new state, its `VkResult`, and the new `skip`
flag. -/
structure VkBeforeHook (σ : Type) where
  run : σ → Bool → σ × Int × Bool

/-- An after-hook: receives the state, returns the new state and its
`VkResult`. -/
structure VkAfterHook (σ : Type) where
  run : σ → σ × Int

/-- The real underlying native call (`s_ddt.<Entry>`): state in, state and
`VkResult` out. -/
structure VkRealCall (σ : Type) where
  run : σ → σ × Int

/-- The before-hook loop: run hooks in order, first non-`VK_SUCCESS` result
returns immediately (`Sum.inr` = early return with that result); if all
succeed, `Sum.inl` carries the final state and `skip` flag. -/
def runBeforeHooks {σ : Type} :
    List (VkBeforeHook σ) → σ → Bool → (σ × Bool) ⊕ (σ × Int)
  | [], s, skip => Sum.inl (s, skip)
  | h :: rest, s, skip =>
    let out := h.run s skip
    if out.2.1 = VK_SUCCESS then runBeforeHooks rest out.1 out.2.2
    else Sum.inr (out.1, out.2.1)

/-- The after-hook loop: each hook's result overwrites `result`; the first
non-`VK_SUCCESS` result returns immediately; with no after-hooks the incoming
result (the real call's, or `VK_SUCCESS` if skipped) is returned. -/
def runAfterHooks {σ : Type} :
    List (VkAfterHook σ) → σ → Int → σ × Int
  | [], s, result => (s, result)
  | h :: rest, s, _ =>
    let out := h.run s
    if out.2 = VK_SUCCESS then runAfterHooks rest out.1 out.2
    else out

/-- The dispatch pattern shared by every intercepted entry point.  When the
before loop completes, each of its hooks returned `VK_SUCCESS`, so the
`result` variable holds `VK_SUCCESS` entering the `if (!skip)` test (also when
there were no before-hooks, from its initialisation). -/
def dispatch {σ : Type} (beforeHooks : List (VkBeforeHook σ))
    (realCall : VkRealCall σ) (afterHooks : List (VkAfterHook σ)) (s : σ) :
    σ × Int :=
  match runBeforeHooks beforeHooks s false with
  | Sum.inr early => early
  | Sum.inl (s2, skip) =>
    let afterReal := if skip then (s2, VK_SUCCESS) else realCall.run s2
    runAfterHooks afterHooks afterReal.1 afterReal.2

/-- A before-hook that applies `f` to the state, returns result `r`, and
leaves the `skip` flag unchanged. -/
def mkBefore {σ : Type} (f : σ → σ) (r : Int) : VkBeforeHook σ :=
  ⟨fun s skip => (f s, r, skip)⟩

/-- A before-hook that applies `f` to the state, returns result `r`, and sets
the `skip` flag. -/
def mkBeforeSkip {σ : Type} (f : σ → σ) (r : Int) : VkBeforeHook σ :=
  ⟨fun s _ => (f s, r, true)⟩

/-- An after-hook that applies `f` to the state and returns result `r`. -/
def mkAfter {σ : Type} (f : σ → σ) (r : Int) : VkAfterHook σ :=
  ⟨fun s => (f s, r)⟩

/-! ## Helper lemmas -/

/-- After `insertCameraData` with a nonzero `frameID`, the addressed slot
stores exactly `frameID` — either it already did (duplicate no-op) or it was
just overwritten. -/
lemma insert_slot_first {T : Type} (N : Nat) (s : CameraState T) (f : Nat)
    (v : T) (hf : f ≠ 0) :
    (((insertCameraData N s f v).1).slots (f % N)).1 = f := by
  unfold insertCameraData
  rw [if_neg hf]
  by_cases h : f = (s.slots (f % N)).1
  · rw [if_pos h]
    exact h.symm
  · rw [if_neg h]
    simp

/-- A slot whose stored index differs from the requested `frameID` yields an
empty read. -/
lemma get_none_of_slot_ne {T : Type} (N : Nat) (s : CameraState T) (f : Nat)
    (h : (s.slots (f % N)).1 ≠ f) :
    (getCameraData N s f).1 = none := by
  unfold getCameraData
  rw [if_neg (Ne.symm h)]

/-! ## Claims -/

/-- **C1** (amended).  `read(f)` returns a stored value exactly when the slot
`f mod N` holds frame index `f`; and for `f1 ≠ f2` congruent mod `N` with
`f2 ≠ 0`, inserting `f2` after `f1` supersedes `f1`: `get(f1)` returns empty,
never `v1`.  (The original claim, without `f2 ≠ 0`, fails because frame 0 is
never stored: see the counterexample.) -/
theorem camera_read_exact_and_superseded {T : Type} (N : Nat)
    (s : CameraState T) (f1 f2 : Nat) (v1 v2 : T) (hne : f1 ≠ f2)
    (hcong : f1 % N = f2 % N) (hf2 : f2 ≠ 0) :
    (∀ f v, (getCameraData N s f).1 = some v ↔
        ((s.slots (f % N)).1 = f ∧ (s.slots (f % N)).2 = v)) ∧
    (getCameraData N
        ((insertCameraData N ((insertCameraData N s f1 v1).1) f2 v2).1)
        f1).1 = none := by
  constructor
  · intro f v
    unfold getCameraData
    by_cases h : f = (s.slots (f % N)).1
    · rw [if_pos h]
      simp [h.symm]
    · rw [if_neg h]
      simp only []
      constructor
      · intro hfalse
        exact absurd hfalse (by simp)
      · rintro ⟨h1, -⟩
        exact absurd h1.symm h
  · apply get_none_of_slot_ne
    rw [hcong, insert_slot_first N _ f2 v2 hf2]
    exact fun heq => hne heq.symm

/-- Witness for `camera_read_exact_and_superseded` at `N = 8`, `f1 = 9`,
`f2 = 1`, on the freshly constructed channel. -/
theorem camera_read_exact_and_superseded_witness :
    (9:Nat) ≠ 1 ∧ (9 % 8 = 1 % 8) ∧ (1:Nat) ≠ 0 ∧
    (getCameraData 8
        ((insertCameraData 8
          ((insertCameraData 8 (initCameraState (0:Nat)) 9 7).1) 1 5).1)
        9).1 = none :=
  ⟨by decide, by decide, by decide,
    (camera_read_exact_and_superseded 8 (initCameraState (0:Nat)) 9 1 7 5
      (by decide) (by decide) (by decide)).2⟩

/-- **C1** counterexample to the original claim: with `N = 8`, `f1 = 8`,
`f2 = 0` we have `f1 ≠ f2` and `f1 ≡ f2 (mod 8)`, yet after
`insert(8, 7)` then `insert(0, 9)` the read `get(8)` still returns `7`
(frame 0 is never stored, so nothing supersedes frame 8), contradicting
"get(f1) returns empty and never v1". -/
theorem camera_superseded_counterexample :
    (8:Nat) ≠ 0 ∧ (8 % 8 = 0 % 8) ∧
    (getCameraData 8
        ((insertCameraData 8
          ((insertCameraData 8 (initCameraState (0:Nat)) 8 7).1) 0 9).1)
        8).1 = some 7 :=
  ⟨by decide, by decide, rfl⟩

/-- **C2**.  With before-hooks `[h1, h2]`, a real call, and after-hooks
`[h3, h4]` (state-effect functions `f1, f2, f3, f4`, real-call effect `fr`):
when all hooks succeed the final state is `f4 (f3 (fr (f2 (f1 s))))` — the
execution order is exactly h1, h2, real-call, h3, h4; and when a before-hook
returns a failure `r ≠ VK_SUCCESS`, dispatch returns `r` with only the
effects of the hooks run so far (no real call, no after-hook, no remaining
before-hook, and no rollback of earlier effects). -/
theorem dispatch_order_and_first_failure {σ : Type} (f1 f2 f3 f4 fr : σ → σ)
    (rr r : Int) (s : σ) (hr : r ≠ VK_SUCCESS) :
    dispatch [mkBefore f1 VK_SUCCESS, mkBefore f2 VK_SUCCESS]
        ⟨fun t => (fr t, rr)⟩
        [mkAfter f3 VK_SUCCESS, mkAfter f4 VK_SUCCESS] s
      = (f4 (f3 (fr (f2 (f1 s)))), VK_SUCCESS) ∧
    dispatch [mkBefore f1 r, mkBefore f2 VK_SUCCESS]
        ⟨fun t => (fr t, rr)⟩
        [mkAfter f3 VK_SUCCESS, mkAfter f4 VK_SUCCESS] s
      = (f1 s, r) ∧
    dispatch [mkBefore f1 VK_SUCCESS, mkBefore f2 r]
        ⟨fun t => (fr t, rr)⟩
        [mkAfter f3 VK_SUCCESS, mkAfter f4 VK_SUCCESS] s
      = (f2 (f1 s), r) := by
  refine ⟨?_, ?_, ?_⟩ <;>
    simp [dispatch, runBeforeHooks, runAfterHooks, mkBefore, mkAfter, hr]

/-- Witness for `dispatch_order_and_first_failure` on trace states
(`σ = List Nat`, each hook appends its tag, the real call appends `0`),
with failure code `1`. -/
theorem dispatch_order_and_first_failure_witness :
    (1:Int) ≠ VK_SUCCESS ∧
    (dispatch [mkBefore (· ++ [1]) VK_SUCCESS, mkBefore (· ++ [2]) VK_SUCCESS]
        ⟨fun t => (t ++ [0], VK_SUCCESS)⟩
        [mkAfter (· ++ [3]) VK_SUCCESS, mkAfter (· ++ [4]) VK_SUCCESS]
        ([] : List Nat)
      = ([1, 2, 0, 3, 4], VK_SUCCESS) ∧
    dispatch [mkBefore (· ++ [1]) 1, mkBefore (· ++ [2]) VK_SUCCESS]
        ⟨fun t => (t ++ [0], VK_SUCCESS)⟩
        [mkAfter (· ++ [3]) VK_SUCCESS, mkAfter (· ++ [4]) VK_SUCCESS]
        ([] : List Nat)
      = ([1], 1) ∧
    dispatch [mkBefore (· ++ [1]) VK_SUCCESS, mkBefore (· ++ [2]) 1]
        ⟨fun t => (t ++ [0], VK_SUCCESS)⟩
        [mkAfter (· ++ [3]) VK_SUCCESS, mkAfter (· ++ [4]) VK_SUCCESS]
        ([] : List Nat)
      = ([1, 2], 1)) :=
  ⟨by decide,
    dispatch_order_and_first_failure (· ++ [1]) (· ++ [2]) (· ++ [3])
      (· ++ [4]) (· ++ [0]) VK_SUCCESS 1 [] (by decide)⟩

/-- **C3**.  If a before-hook sets the skip flag and no before-hook fails,
the real call is not invoked (its effect `fr` does not occur in the final
state, for arbitrary `fr`) but all after-hooks still run in order — shown
both for the first and for the second before-hook setting skip. -/
theorem dispatch_skip_real_call {σ : Type} (f1 f2 f3 f4 fr : σ → σ)
    (rr : Int) (s : σ) :
    dispatch [mkBeforeSkip f1 VK_SUCCESS, mkBefore f2 VK_SUCCESS]
        ⟨fun t => (fr t, rr)⟩
        [mkAfter f3 VK_SUCCESS, mkAfter f4 VK_SUCCESS] s
      = (f4 (f3 (f2 (f1 s))), VK_SUCCESS) ∧
    dispatch [mkBefore f1 VK_SUCCESS, mkBeforeSkip f2 VK_SUCCESS]
        ⟨fun t => (fr t, rr)⟩
        [mkAfter f3 VK_SUCCESS, mkAfter f4 VK_SUCCESS] s
      = (f4 (f3 (f2 (f1 s))), VK_SUCCESS) := by
  constructor <;>
    simp [dispatch, runBeforeHooks, runAfterHooks, mkBefore, mkBeforeSkip,
      mkAfter]

/-- **C4** (amended).  Characterisation of slot overwrites: a frame-0 write
is dropped; a write whose index equals the slot's stored index is rejected
with a duplicate warning; and any other nonzero write addressed to the slot
overwrites it — not only the write for `f + N` — with a non-consecutive
(out-of-order) warning logged exactly when `lastFrame + 1 ≠ f'`.  (The
original invariant, "only ever overwritten by a write for frame `f + N`",
fails: see the counterexample, where a stale write for `f − N` is applied.) -/
theorem slot_overwrite_characterisation {T : Type} (N : Nat)
    (s : CameraState T) (f' : Nat) (v : T) :
    (f' = 0 → insertCameraData N s f' v = (s, [])) ∧
    (f' ≠ 0 → (s.slots (f' % N)).1 = f' →
      insertCameraData N s f' v = (s, [CameraWarning.duplicate])) ∧
    (f' ≠ 0 → (s.slots (f' % N)).1 ≠ f' →
      ((insertCameraData N s f' v).1.slots (f' % N)) = (f', v) ∧
      (insertCameraData N s f' v).1.lastFrame = f' ∧
      (insertCameraData N s f' v).2 =
        (if s.lastFrame + 1 ≠ f' then [CameraWarning.outOfOrder] else [])) := by
  refine ⟨?_, ?_, ?_⟩
  · intro h0
    unfold insertCameraData
    rw [if_pos h0]
  · intro h0 hdup
    unfold insertCameraData
    rw [if_neg h0, if_pos hdup.symm]
  · intro h0 hdup
    unfold insertCameraData
    rw [if_neg h0, if_neg (fun h => hdup h.symm)]
    simp

/-- Witness for `slot_overwrite_characterisation`: with `N = 8`, the slot `2`
currently holding frame `10` is overwritten by the stale write for frame `2`,
with an out-of-order warning. -/
theorem slot_overwrite_characterisation_witness :
    ((2:Nat) ≠ 0 ∧
      (((insertCameraData 8 (initCameraState (0:Nat)) 10 7).1).slots
        (2 % 8)).1 ≠ 2) ∧
    ((insertCameraData 8 ((insertCameraData 8 (initCameraState (0:Nat)) 10
        7).1) 2 9).1.slots (2 % 8)) = (2, 9) ∧
    (insertCameraData 8 ((insertCameraData 8 (initCameraState (0:Nat)) 10
        7).1) 2 9).1.lastFrame = 2 ∧
    (insertCameraData 8 ((insertCameraData 8 (initCameraState (0:Nat)) 10
        7).1) 2 9).2 =
      (if ((insertCameraData 8 (initCameraState (0:Nat)) 10 7).1).lastFrame
          + 1 ≠ 2 then [CameraWarning.outOfOrder] else []) :=
  ⟨⟨by decide, by decide⟩,
    (slot_overwrite_characterisation 8
      ((insertCameraData 8 (initCameraState (0:Nat)) 10 7).1) 2 9).2.2
      (by decide) (by decide)⟩

/-- **C4** counterexample to the original invariant: with `N = 8`, after
`insert(10, 7)` the slot `10 mod 8 = 2` stores frame index `10`; the claim
says it may only be overwritten by a write for frame `10 + 8 = 18`, yet
`insert(2, 9)` — a stale frame, since `2 ≠ 18` — is applied over it, leaving
the slot holding `(2, 9)`. -/
theorem slot_overwrite_counterexample :
    (((insertCameraData 8 (initCameraState (0:Nat)) 10 7).1).slots 2).1 = 10 ∧
    ((insertCameraData 8 ((insertCameraData 8 (initCameraState (0:Nat)) 10
        7).1) 2 9).1.slots 2) = (2, 9) ∧
    (2:Nat) ≠ 10 + 8 :=
  ⟨rfl, rfl, by decide⟩

/-- **C5** (amended).  A duplicate write — `insert(f, v2)` when the slot
already stores frame index `f` — logs the duplicate warning and is a no-op:
the state is unchanged, so the *first* write wins and a subsequent `get(f)`
returns the previously stored value, not `v2`. -/
theorem insert_duplicate_noop {T : Type} (N : Nat) (s : CameraState T)
    (f : Nat) (v2 : T) (hf : f ≠ 0) (hslot : (s.slots (f % N)).1 = f) :
    insertCameraData N s f v2 = (s, [CameraWarning.duplicate]) ∧
    (getCameraData N (insertCameraData N s f v2).1 f).1 =
      some (s.slots (f % N)).2 := by
  have hnoop : insertCameraData N s f v2 = (s, [CameraWarning.duplicate]) := by
    unfold insertCameraData
    rw [if_neg hf, if_pos hslot.symm]
  refine ⟨hnoop, ?_⟩
  rw [hnoop]
  unfold getCameraData
  rw [if_pos hslot.symm]

/-- Witness for `insert_duplicate_noop`: after `insert(1, 7)` on a fresh
channel of capacity 8, the duplicate `insert(1, 9)` is a no-op and `get(1)`
still returns `7`. -/
theorem insert_duplicate_noop_witness :
    ((1:Nat) ≠ 0 ∧
      (((insertCameraData 8 (initCameraState (0:Nat)) 1 7).1).slots
        (1 % 8)).1 = 1) ∧
    insertCameraData 8 ((insertCameraData 8 (initCameraState (0:Nat)) 1
        7).1) 1 9 =
      ((insertCameraData 8 (initCameraState (0:Nat)) 1 7).1,
        [CameraWarning.duplicate]) ∧
    (getCameraData 8 (insertCameraData 8 ((insertCameraData 8
        (initCameraState (0:Nat)) 1 7).1) 1 9).1 1).1 =
      some (((insertCameraData 8 (initCameraState (0:Nat)) 1 7).1).slots
        (1 % 8)).2 :=
  ⟨⟨by decide, by decide⟩,
    insert_duplicate_noop 8 ((insertCameraData 8 (initCameraState (0:Nat)) 1
      7).1) 1 9 (by decide) (by decide)⟩

/-- **C5** counterexample to the original claim: on a fresh channel of
capacity 8, `insert(1, 7)` then the duplicate `insert(1, 9)`; the claim says
the most recent write wins and `get(1)` returns `9`, but the duplicate write
is a no-op and `get(1)` returns `7`. -/
theorem insert_duplicate_counterexample :
    (getCameraData 8 ((insertCameraData 8 ((insertCameraData 8
        (initCameraState (0:Nat)) 1 7).1) 1 9).1) 1).1 = some 7 ∧
    (some 7 : Option Nat) ≠ some 9 :=
  ⟨rfl, by decide⟩

/-- **C6**.  A nonzero, non-duplicate, non-consecutive write
(`frameIndex ≠ lastFrame + 1`) logs the out-of-order warning but is still
applied: the slot `frameIndex mod N` stores the value and a subsequent
`get(frameIndex)` returns it. -/
theorem insert_out_of_order_applied {T : Type} (N : Nat) (s : CameraState T)
    (f : Nat) (v : T) (hf : f ≠ 0) (hdup : (s.slots (f % N)).1 ≠ f)
    (hord : s.lastFrame + 1 ≠ f) :
    (insertCameraData N s f v).2 = [CameraWarning.outOfOrder] ∧
    ((insertCameraData N s f v).1.slots (f % N)) = (f, v) ∧
    (getCameraData N (insertCameraData N s f v).1 f).1 = some v := by
  have happ :
      ((insertCameraData N s f v).1.slots (f % N)) = (f, v) ∧
      (insertCameraData N s f v).2 = [CameraWarning.outOfOrder] := by
    unfold insertCameraData
    rw [if_neg hf, if_neg (fun h => hdup h.symm)]
    simp [hord]
  refine ⟨happ.2, happ.1, ?_⟩
  unfold getCameraData
  rw [happ.1]
  simp

/-- Witness for `insert_out_of_order_applied`: on a fresh channel of
capacity 8, the out-of-order write `insert(3, 5)` (expected frame 1) warns
but stores, and `get(3)` returns `5`. -/
theorem insert_out_of_order_applied_witness :
    ((3:Nat) ≠ 0 ∧ ((initCameraState (0:Nat)).slots (3 % 8)).1 ≠ 3 ∧
      (initCameraState (0:Nat)).lastFrame + 1 ≠ 3) ∧
    (insertCameraData 8 (initCameraState (0:Nat)) 3 5).2 =
      [CameraWarning.outOfOrder] ∧
    ((insertCameraData 8 (initCameraState (0:Nat)) 3 5).1.slots (3 % 8)) =
      (3, 5) ∧
    (getCameraData 8 (insertCameraData 8 (initCameraState (0:Nat)) 3
        5).1 3).1 = some 5 :=
  ⟨⟨by decide, by decide, by decide⟩,
    insert_out_of_order_applied 8 (initCameraState (0:Nat)) 3 5 (by decide)
      (by decide) (by decide)⟩

/-- **C7**.  `insert(0, v)` never stores anything: frame 0 is reserved, and
the whole state (ring contents and `lastFrame`) is returned unchanged, with
no warning. -/
theorem insert_frame_zero_noop {T : Type} (N : Nat) (s : CameraState T)
    (v : T) :
    insertCameraData N s 0 v = (s, []) := by
  unfold insertCameraData
  rw [if_pos rfl]

/-- **C8**.  On a miss (the slot does not hold the requested frame), the wait
timeout is `0` ms for the first frames (`f < 5`) — the call returns empty
immediately, logging only the availability warning — and `100` ms otherwise,
in which case the call times out, returns empty and additionally logs the
timeout warning.  No error is raised: the result is an `Option`, `none` on
every miss. -/
theorem get_miss_timeout_policy {T : Type} (N : Nat) (s : CameraState T)
    (f : Nat) (hmiss : (s.slots (f % N)).1 ≠ f) :
    (f < 5 → waitTimeoutMs f = 0 ∧
      getCameraData N s f = (none, [CameraWarning.notAvailable])) ∧
    (5 ≤ f → waitTimeoutMs f = 100 ∧
      getCameraData N s f =
        (none, [CameraWarning.notAvailable, CameraWarning.timeout])) := by
  constructor
  · intro hlt
    have ht : waitTimeoutMs f = 0 := by
      unfold waitTimeoutMs
      rw [if_pos hlt]
    refine ⟨ht, ?_⟩
    unfold getCameraData
    rw [if_neg (Ne.symm hmiss), ht]
    simp
  · intro hge
    have ht : waitTimeoutMs f = 100 := by
      unfold waitTimeoutMs
      rw [if_neg (Nat.not_lt.mpr hge)]
    refine ⟨ht, ?_⟩
    unfold getCameraData
    rw [if_neg (Ne.symm hmiss), ht]
    simp

/-- Witness for `get_miss_timeout_policy`, applied at the missing frames `1`
(early: no blocking, no timeout warning) and `6` (late: 100 ms timeout,
timeout warning) on a fresh channel of capacity 8. -/
theorem get_miss_timeout_policy_witness :
    (((initCameraState (0:Nat)).slots (1 % 8)).1 ≠ 1 ∧ 1 < 5 ∧
      waitTimeoutMs 1 = 0 ∧
      getCameraData 8 (initCameraState (0:Nat)) 1 =
        (none, [CameraWarning.notAvailable])) ∧
    (((initCameraState (0:Nat)).slots (6 % 8)).1 ≠ 6 ∧ 5 ≤ 6 ∧
      waitTimeoutMs 6 = 100 ∧
      getCameraData 8 (initCameraState (0:Nat)) 6 =
        (none, [CameraWarning.notAvailable, CameraWarning.timeout])) :=
  ⟨⟨by decide, by decide,
      (get_miss_timeout_policy 8 (initCameraState (0:Nat)) 1
        (by decide)).1 (by decide)⟩,
    ⟨by decide, by decide,
      (get_miss_timeout_policy 8 (initCameraState (0:Nat)) 6
        (by decide)).2 (by decide)⟩⟩

/-- **C9**.  When the camera-data channel has no value for the requested
frame, `slReflexGetCameraDataInternal` returns the typed error
`Result::eErrorInvalidState` and the caller's output structure is returned
unchanged. -/
theorem getCameraDataInternal_miss_typed_error {T : Type} (N : Nat)
    (s : CameraState T) (frame : Nat) (out : T)
    (hmiss : (getCameraData N s frame).1 = none) :
    slReflexGetCameraDataInternal N s frame out =
      (SlResult.eErrorInvalidState, out) := by
  unfold slReflexGetCameraDataInternal
  rw [hmiss]

/-- Witness for `getCameraDataInternal_miss_typed_error`: frame 1 on a fresh
channel of capacity 8, with caller output `42`. -/
theorem getCameraDataInternal_miss_typed_error_witness :
    (getCameraData 8 (initCameraState (0:Nat)) 1).1 = none ∧
    slReflexGetCameraDataInternal 8 (initCameraState (0:Nat)) 1 42 =
      (SlResult.eErrorInvalidState, 42) :=
  ⟨by decide,
    getCameraDataInternal_miss_typed_error 8 (initCameraState (0:Nat)) 1 42
      (by decide)⟩

/-- **C10**.  On a freshly constructed channel every slot default-initialises
to stored frame index 0, so `get(0)` matches exactly and returns the
default-constructed payload immediately — no wait, no warning — even though
`insert(0, v)` never stores data. -/
theorem get_zero_on_fresh_channel {T : Type} (dflt : T) (N : Nat) :
    getCameraData N (initCameraState dflt) 0 = (some dflt, []) := by
  unfold getCameraData initCameraState
  rw [if_pos rfl]

end Streamline
